import Mathlib

/-
Verification of the multi-repository batch-operation orchestrator
(src/repo-manager.js) against its natural-language specification.

The JavaScript source shells out to git / composer / npm / gh.  We model the
external world of one repository as an oracle (RepoEnv): whether the
repository directory exists, whether composer.json / package.json are
present, and the outcome (trimmed stdout, or the thrown error message) of
every external command the tool can issue.  Each per-repository operation is
translated into a pure function from this oracle to the operation's result
record together with the ordered trace of external commands it issued.
Fan-out over a selection of repositories is a fold over the selection list,
mirroring the for-of loops of the source.
-/

/- ===== JavaScript string primitives used by the source ===== -/

/-- Model of JavaScript String.prototype.split with a single-character
separator, on the character list of the string. -/
def splitOnChar (c : Char) : List Char → List (List Char)
  | [] => [[]]
  | x :: xs =>
    let r := splitOnChar c xs
    if x = c then [] :: r
    else
      match r with
      | [] => [[x]]
      | y :: ys => (x :: y) :: ys

/-- JavaScript s.split(sep) for a one-character separator. -/
def jsSplit (s : String) (c : Char) : List String :=
  (splitOnChar c s.data).map (fun l => ⟨l⟩)

/-- JavaScript String.prototype.trim: strip leading and trailing whitespace. -/
def jsTrim (s : String) : String :=
  ⟨((s.data.dropWhile Char.isWhitespace).reverse.dropWhile Char.isWhitespace).reverse⟩

/-- Strip a literal leading character sequence, or report that it is absent. -/
def dropPre : List Char → List Char → Option (List Char)
  | [], l => some l
  | _, [] => none
  | p :: ps, x :: xs => if x = p then dropPre ps xs else none

/-- Numeric value of a decimal digit character. -/
def digitVal (c : Char) : Nat := c.toNat - 48

/-- Natural number denoted by a list of decimal digit characters. -/
def natOfDigits (l : List Char) : Nat :=
  l.foldl (fun acc c => acc * 10 + digitVal c) 0

/-- Model of JavaScript parseInt on the non-negative outputs produced by
git rev-list: skip leading whitespace, read a maximal digit run, NaN
(modelled as none) when there is no digit. -/
def jsParseIntNat (s : String) : Option Nat :=
  let d := (s.data.dropWhile Char.isWhitespace).takeWhile Char.isDigit
  if d = [] then none else some (natOfDigits d)

/- ===== External commands (repo-manager.js builds these as strings) ===== -/

/-- Git subcommands issued by repo-manager.js, one constructor per distinct
command template the source builds; string arguments carry the dynamic
parts interpolated by the source. -/
inductive GitCmd where
  | revParseHead
  | branchAll
  | fetchAllQuiet
  | fetch
  | fetchQuiet
  | diffIndexQuiet
  | diffCachedNumstat
  | statusPorcelain
  | revListLeftRight (branch : String)
  | stashPush (msg : String)
  | stashPop
  | stashList
  | revParseVerifyOrigin (branch : String)
  | checkout (branch : String)
  | pull
  | logLatest
  | lsFilesOthers
  | resetHard
  | cleanFd
  | revParseUpstream (branch : String)
  | pushUpstream (branch : String)
  | symbolicRefHead
deriving Repr, DecidableEq

/-- Exact git command text the source interpolates for each GitCmd
(the argument of gitCommand, which prepends "sudo -u www-data git "). -/
def GitCmd.render : GitCmd → String
  | .revParseHead => "rev-parse --abbrev-ref HEAD"
  | .branchAll => "branch -a"
  | .fetchAllQuiet => "fetch --all --quiet"
  | .fetch => "fetch"
  | .fetchQuiet => "fetch --quiet"
  | .diffIndexQuiet => "diff-index --quiet HEAD --"
  | .diffCachedNumstat => "diff --cached --numstat"
  | .statusPorcelain => "status --porcelain"
  | .revListLeftRight b => "rev-list --left-right --count " ++ b ++ "...origin/" ++ b
  | .stashPush m => "stash push -m \"" ++ m ++ "\""
  | .stashPop => "stash pop"
  | .stashList => "stash list"
  | .revParseVerifyOrigin b => "rev-parse --verify origin/" ++ b
  | .checkout b => "checkout " ++ b
  | .pull => "pull"
  | .logLatest => "log -1 --pretty=format:\"%h - %s (%cr)\""
  | .lsFilesOthers => "ls-files --others --exclude-standard"
  | .resetHard => "reset --hard HEAD"
  | .cleanFd => "clean -fd"
  | .revParseUpstream b => "rev-parse --abbrev-ref " ++ b ++ "@{upstream}"
  | .pushUpstream b => "push -u origin " ++ b
  | .symbolicRefHead => "symbolic-ref refs/remotes/origin/HEAD | sed \"s@^refs/remotes/origin/@@\""

/-- Non-git external commands issued by repo-manager.js (execCommand). -/
inductive ShCmd where
  | composerDefault (cmd : String)
  | composerPhp82 (cmd : String)
  | composerPhp81 (cmd : String)
  | npmInstall
  | ghPrCreate (title : String) (body : String) (draft : Bool) (base : String)
deriving Repr, DecidableEq

/-- Exact command text for each ShCmd, as built by the source. -/
def ShCmd.render : ShCmd → String
  | .composerDefault c => "sudo -u www-data composer " ++ c ++ " --no-interaction"
  | .composerPhp82 c =>
      "sudo -u www-data /usr/bin/php8.2 /usr/local/bin/composer26 " ++ c ++ " --no-interaction"
  | .composerPhp81 c =>
      "sudo -u www-data /usr/bin/php8.1 /usr/local/bin/composer26 " ++ c ++ " --no-interaction"
  | .npmInstall => "sudo -u www-data npm install"
  | .ghPrCreate t b d base =>
      "gh pr create --title \"" ++ t ++ "\" --body \"" ++ b ++ "\""
        ++ (if d then " --draft" else "") ++ " --base " ++ base

/-- One external invocation, as recorded in an operation's command trace. -/
inductive Cmd where
  | git (c : GitCmd)
  | sh (c : ShCmd)
deriving Repr, DecidableEq

/-- Oracle for one repository: directory and manifest existence, plus the
outcome of every external command (ok carries the trimmed stdout of
execCommand; error carries the thrown error message). -/
structure RepoEnv where
  pathExists : Bool
  hasComposerJson : Bool
  hasPackageJson : Bool
  git : GitCmd → Except String String
  sh : ShCmd → Except String String

/-- Did a command invocation succeed? -/
def isOk : Except String String → Bool
  | .ok _ => true
  | .error _ => false

theorem isOk_ok (s : String) : isOk (.ok s) = true := rfl

theorem isOk_error (e : String) : isOk (.error e) = false := rfl

/- ===== Result records (duck-typed objects in the source) ===== -/

/-- Result of getCurrentBranch (repo-manager.js lines 148-159). -/
structure BranchResult where
  service : String
  branch : String
  error : Option String
deriving Repr, DecidableEq

/-- Result of getAllBranches (lines 161-195). -/
structure BranchesResult where
  service : String
  branches : List String
  error : Option String
deriving Repr, DecidableEq

/-- Result of updateServiceBranch (lines 197-265). -/
structure UpdateResult where
  service : String
  success : Bool
  branch : Option String
  commit : Option String
  error : Option String
deriving Repr, DecidableEq

/-- RepositoryStatus produced by getRepositoryStatus (lines 365-432). -/
structure RepoStatus where
  service : String
  branch : String
  uncommittedFiles : Nat
  hasUnstagedChanges : Bool
  hasStagedChanges : Bool
  commitsAhead : Nat
  commitsBehind : Nat
  isClean : Bool
deriving Repr, DecidableEq

/-- Outcome of getRepositoryStatus: either an error record or a status. -/
inductive StatusOutcome where
  | err (service : String) (error : String)
  | ok (st : RepoStatus)
deriving Repr, DecidableEq

/-- Per-repository result of syncRepositories (lines 688-751). -/
structure SyncResult where
  service : String
  success : Bool
  branch : Option String
  error : Option String
deriving Repr, DecidableEq

/-- Per-repository result of manageStash with the save action (934-946). -/
structure StashResult where
  service : String
  action : String
  status : String
  message : Option String
  error : Option String
deriving Repr, DecidableEq

/-- Per-repository result of dropUncommittedChanges (lines 1062-1131). -/
structure DropResult where
  service : String
  success : Bool
  status : Option String
  branch : Option String
  error : Option String
deriving Repr, DecidableEq

/-- Per-repository result of createPullRequest (lines 1183-1248). -/
structure PRResult where
  service : String
  success : Bool
  branch : Option String
  prUrl : Option String
  error : Option String
deriving Repr, DecidableEq

/- ===== Per-repository operations ===== -/

/-- getCurrentBranch (lines 148-159): missing directory short-circuits with
error "Directory not found"; otherwise one rev-parse query, with a thrown
error captured in the error field and branch reported as "N/A". -/
def getCurrentBranch (sn : String) (env : RepoEnv) : BranchResult × List Cmd :=
  if env.pathExists = false then
    ({ service := sn, branch := "N/A", error := some "Directory not found" }, [])
  else
    match env.git .revParseHead with
    | .ok b => ({ service := sn, branch := b, error := none }, [Cmd.git .revParseHead])
    | .error e =>
        ({ service := sn, branch := "N/A", error := some e }, [Cmd.git .revParseHead])

/-- Line 182 of the source: strip the current-branch marker, the regex
replace of a leading star followed by whitespace. -/
def stripStar (s : String) : String :=
  match s.data with
  | '*' :: rest => ⟨rest.dropWhile Char.isWhitespace⟩
  | _ => s

/-- Line 183 of the source: strip a leading "remotes/origin/" segment. -/
def stripRemoteOrigin (s : String) : String :=
  match dropPre "remotes/origin/".data s.data with
  | some rest => ⟨rest⟩
  | none => s

/-- Lines 186-189 of the source: keep the first occurrence of each branch
name (self.indexOf(branch) === index) and drop the HEAD pseudo-branch. -/
def dedupBranches (l : List String) : List String :=
  (l.enum.filter (fun p => (p.2 != "HEAD") && (l.indexOf p.2 == p.1))).map (·.2)

/-- Lines 176-189: the branch-listing parse pipeline applied to the lines of
the git branch -a output: trim, drop empties, strip markers, de-duplicate. -/
def parseBranchLines (lines : List String) : List String :=
  dedupBranches
    (((lines.map jsTrim).filter (fun l => l.length > 0)).map
      (fun l => stripRemoteOrigin (stripStar l)))

/-- getAllBranches (lines 161-195): short-circuit on a missing directory;
best-effort fetch whose failure is ignored; branch -a output parsed by
parseBranchLines; a thrown listing error yields an empty branch list. -/
def getAllBranches (sn : String) (env : RepoEnv) : BranchesResult × List Cmd :=
  if env.pathExists = false then
    ({ service := sn, branches := [], error := some "Directory not found" }, [])
  else
    match env.git .branchAll with
    | .ok out =>
        ({ service := sn, branches := parseBranchLines (jsSplit out '\n'), error := none },
         [Cmd.git .fetchAllQuiet, Cmd.git .branchAll])
    | .error e =>
        ({ service := sn, branches := [], error := some e },
         [Cmd.git .fetchAllQuiet, Cmd.git .branchAll])

/-- Lines 274-295: which composer binary a service uses (static tables
defaultComposerServices, php82Services, php81Services in the source). -/
def composerShCmd (sn : String) (c : String) : ShCmd :=
  if ["users", "images"].contains sn then .composerDefault c
  else if ["emails", "frontend", "integrations", "sms", "templates"].contains sn then
    .composerPhp82 c
  else if ["ads", "social"].contains sn then .composerPhp81 c
  else .composerDefault c

/-- updateDependencies (lines 267-306).  The whole body sits in a try whose
catch only logs a warning, so a failure never escapes: the function returns
only the trace of commands it issued.  A composer failure skips the npm
check; npm runs only for the intelligence service with a package.json. -/
def updateDependencies (sn : String) (env : RepoEnv) (useUpdate : Bool) : List Cmd :=
  if env.hasComposerJson then
    match env.sh (composerShCmd sn (if useUpdate then "update" else "install")) with
    | .error _ => [Cmd.sh (composerShCmd sn (if useUpdate then "update" else "install"))]
    | .ok _ =>
      if env.hasPackageJson && sn == "intelligence" then
        [Cmd.sh (composerShCmd sn (if useUpdate then "update" else "install")),
         Cmd.sh .npmInstall]
      else [Cmd.sh (composerShCmd sn (if useUpdate then "update" else "install"))]
  else if env.hasPackageJson && sn == "intelligence" then [Cmd.sh .npmInstall]
  else []

/-- Failure record of updateServiceBranch (its catch block, lines 257-264). -/
def updFail (sn e : String) : UpdateResult :=
  { service := sn, success := false, branch := none, commit := none, error := some e }

/-- Line 218 of the source: the auto-stash message with the ISO timestamp. -/
def autoStashMsg (now : String) : String :=
  "Auto-stash before branch update " ++ now

/-- Lines 221-256 of updateServiceBranch, after the current-branch query and
the dirty-check/auto-stash step: fetch, verify the target branch on the
remote (failing with the constructed does-not-exist message), checkout,
pull, optional dependency installation (whose failures are swallowed by
updateDependencies), and the final commit query.  tr is the trace
accumulated by the earlier steps. -/
def updateTail (sn : String) (env : RepoEnv) (tb : String)
    (useComposerUpdate skipDeps : Bool) (tr : List Cmd) : UpdateResult × List Cmd :=
  match env.git .fetch with
  | .error e => (updFail sn e, tr ++ [Cmd.git .fetch])
  | .ok _ =>
    match env.git (.revParseVerifyOrigin tb) with
    | .error _ =>
        (updFail sn ("Branch '" ++ tb ++ "' does not exist in remote"),
         tr ++ [Cmd.git .fetch, Cmd.git (.revParseVerifyOrigin tb)])
    | .ok _ =>
      match env.git (.checkout tb) with
      | .error e =>
          (updFail sn e,
           tr ++ [Cmd.git .fetch, Cmd.git (.revParseVerifyOrigin tb), Cmd.git (.checkout tb)])
      | .ok _ =>
        match env.git .pull with
        | .error e =>
            (updFail sn e,
             tr ++ [Cmd.git .fetch, Cmd.git (.revParseVerifyOrigin tb),
                    Cmd.git (.checkout tb), Cmd.git .pull])
        | .ok _ =>
          match env.git .logLatest with
          | .error e =>
              (updFail sn e,
               tr ++ [Cmd.git .fetch, Cmd.git (.revParseVerifyOrigin tb),
                      Cmd.git (.checkout tb), Cmd.git .pull]
                  ++ (if skipDeps then [] else updateDependencies sn env useComposerUpdate)
                  ++ [Cmd.git .logLatest])
          | .ok commit =>
              ({ service := sn, success := true, branch := some tb,
                 commit := some commit, error := none },
               tr ++ [Cmd.git .fetch, Cmd.git (.revParseVerifyOrigin tb),
                      Cmd.git (.checkout tb), Cmd.git .pull]
                  ++ (if skipDeps then [] else updateDependencies sn env useComposerUpdate)
                  ++ [Cmd.git .logLatest])

/-- updateServiceBranch (lines 197-265): missing-directory short-circuit,
current-branch query, dirty check with auto-stash on a dirty tree (a stash
failure escapes to the catch), then the updateTail step chain.  Any thrown
step error is converted by the catch into a success=false record. -/
def updateServiceBranch (sn : String) (env : RepoEnv) (tb : String)
    (useComposerUpdate skipDeps : Bool) (now : String) : UpdateResult × List Cmd :=
  if env.pathExists = false then
    (updFail sn "Directory not found", [])
  else
    match env.git .revParseHead with
    | .error e => (updFail sn e, [Cmd.git .revParseHead])
    | .ok _ =>
      match env.git .diffIndexQuiet with
      | .ok _ =>
          updateTail sn env tb useComposerUpdate skipDeps
            [Cmd.git .revParseHead, Cmd.git .diffIndexQuiet]
      | .error _ =>
        match env.git (.stashPush (autoStashMsg now)) with
        | .error e =>
            (updFail sn e,
             [Cmd.git .revParseHead, Cmd.git .diffIndexQuiet,
              Cmd.git (.stashPush (autoStashMsg now))])
        | .ok _ =>
            updateTail sn env tb useComposerUpdate skipDeps
              [Cmd.git .revParseHead, Cmd.git .diffIndexQuiet,
               Cmd.git (.stashPush (autoStashMsg now))]

/-- Lines 379-384: the boolean unstaged-changes probe of getRepositoryStatus
(diff-index succeeding means no unstaged changes). -/
def hasUnstagedB (env : RepoEnv) : Bool :=
  match env.git .diffIndexQuiet with
  | .ok _ => false
  | .error _ => true

/-- Lines 386-392: the staged-changes probe (non-empty diff --cached output;
a thrown error is swallowed and leaves the flag false). -/
def hasStagedB (env : RepoEnv) : Bool :=
  match env.git .diffCachedNumstat with
  | .ok out => out != ""
  | .error _ => false

/-- Lines 397-399: count the non-blank lines of the porcelain status. -/
def countStatusLines (out : String) : Nat :=
  if out = "" then 0
  else ((jsSplit out '\n').filter (fun l => jsTrim l != "")).length

/-- Lines 394-400: the uncommitted-file count (errors swallowed, count 0). -/
def uncommittedCount (env : RepoEnv) : Nat :=
  match env.git .statusPorcelain with
  | .ok out => countStatusLines out
  | .error _ => 0

/-- Lines 411-414: parse the tab-separated ahead/behind pair of git
rev-list, with the JavaScript or-zero defaults for NaN and undefined. -/
def parseAheadBehind (s : String) : Nat × Nat :=
  let parts := jsSplit s '\t'
  ((((parts.get? 0).bind jsParseIntNat).getD 0),
   (((parts.get? 1).bind jsParseIntNat).getD 0))

/-- Lines 402-417: ahead/behind counts; a failing fetch or an unresolvable
upstream yields (0, 0) rather than an error. -/
def aheadBehind (env : RepoEnv) (cb : String) : Nat × Nat :=
  match env.git .fetchQuiet with
  | .error _ => (0, 0)
  | .ok _ =>
    match env.git (.revListLeftRight cb) with
    | .error _ => (0, 0)
    | .ok out => parseAheadBehind out

/-- Command trace of getRepositoryStatus after the current-branch query. -/
def statusTrace (env : RepoEnv) (cb : String) : List Cmd :=
  [Cmd.git .revParseHead, Cmd.git .diffIndexQuiet, Cmd.git .diffCachedNumstat,
   Cmd.git .statusPorcelain, Cmd.git .fetchQuiet]
    ++ (match env.git .fetchQuiet with
        | .ok _ => [Cmd.git (.revListLeftRight cb)]
        | .error _ => [])

/-- getRepositoryStatus (lines 365-432): missing-directory short-circuit,
current-branch query (a thrown error reaches the catch), then the probes;
isClean is computed on line 427 from the three counters. -/
def getRepositoryStatus (sn : String) (env : RepoEnv) : StatusOutcome × List Cmd :=
  if env.pathExists = false then (.err sn "Directory not found", [])
  else
    match env.git .revParseHead with
    | .error e => (.err sn e, [Cmd.git .revParseHead])
    | .ok cb =>
        (.ok { service := sn, branch := cb,
               uncommittedFiles := uncommittedCount env,
               hasUnstagedChanges := hasUnstagedB env,
               hasStagedChanges := hasStagedB env,
               commitsAhead := (aheadBehind env cb).1,
               commitsBehind := (aheadBehind env cb).2,
               isClean := uncommittedCount env == 0 && (aheadBehind env cb).1 == 0
                            && (aheadBehind env cb).2 == 0 },
         statusTrace env cb)

/-- Per-repository body of syncRepositories (lines 695-746): a missing
directory records a Directory-not-found failure; a dirty tracked tree
(failing diff-index) records a Has-uncommitted-changes failure without
fetching or pulling; otherwise fetch then pull. -/
def syncRepo (sn : String) (env : RepoEnv) : SyncResult × List Cmd :=
  if env.pathExists = false then
    ({ service := sn, success := false, branch := none,
       error := some "Directory not found" }, [])
  else
    match env.git .revParseHead with
    | .error e =>
        ({ service := sn, success := false, branch := none, error := some e },
         [Cmd.git .revParseHead])
    | .ok cb =>
      match env.git .diffIndexQuiet with
      | .error _ =>
          ({ service := sn, success := false, branch := none,
             error := some "Has uncommitted changes" },
           [Cmd.git .revParseHead, Cmd.git .diffIndexQuiet])
      | .ok _ =>
        match env.git .fetch with
        | .error e =>
            ({ service := sn, success := false, branch := none, error := some e },
             [Cmd.git .revParseHead, Cmd.git .diffIndexQuiet, Cmd.git .fetch])
        | .ok _ =>
          match env.git .pull with
          | .error e =>
              ({ service := sn, success := false, branch := none, error := some e },
               [Cmd.git .revParseHead, Cmd.git .diffIndexQuiet, Cmd.git .fetch,
                Cmd.git .pull])
          | .ok _ =>
              ({ service := sn, success := true, branch := some cb, error := none },
               [Cmd.git .revParseHead, Cmd.git .diffIndexQuiet, Cmd.git .fetch,
                Cmd.git .pull])

/-- Line 942 of the source: message || the generated timestamped default
(the empty string is falsy in JavaScript). -/
def stashMsgOf (message now : String) : String :=
  if message == "" then "repo-manager stash " ++ now else message

/-- Per-repository body of manageStash with the save action (lines 926-946):
a missing directory is skipped with continue, producing no result record; a
clean tree (diff-index succeeding) records status "no changes"; a dirty
tree stashes with the supplied message or the generated timestamped default
(message || ...), and a thrown stash error reaches the per-repository catch
as a status "error" record. -/
def stashSaveRepo (sn : String) (env : RepoEnv) (message now : String) :
    Option StashResult × List Cmd :=
  if env.pathExists = false then (none, [])
  else
    match env.git .diffIndexQuiet with
    | .ok _ =>
        (some { service := sn, action := "save", status := "no changes",
                message := none, error := none },
         [Cmd.git .diffIndexQuiet])
    | .error _ =>
      match env.git (.stashPush (stashMsgOf message now)) with
      | .ok _ =>
          (some { service := sn, action := "save", status := "saved",
                  message := some (stashMsgOf message now), error := none },
           [Cmd.git .diffIndexQuiet, Cmd.git (.stashPush (stashMsgOf message now))])
      | .error e =>
          (some { service := sn, action := "save", status := "error",
                  message := none, error := some e },
           [Cmd.git .diffIndexQuiet, Cmd.git (.stashPush (stashMsgOf message now))])

/-- Per-repository body of dropUncommittedChanges (lines 1069-1131): missing
directory records a failure; hasChanges is true when diff-index fails
(tracked changes) or when ls-files reports untracked files (a thrown
ls-files error reaches the catch); without changes the distinct "no
changes" success is recorded; with changes the tree is hard-reset and
cleaned and the current branch recorded. -/
def dropRepo (sn : String) (env : RepoEnv) : DropResult × List Cmd :=
  if env.pathExists = false then
    ({ service := sn, success := false, status := none, branch := none,
       error := some "Directory not found" }, [])
  else
    match env.git .lsFilesOthers with
    | .error e =>
        ({ service := sn, success := false, status := none, branch := none,
           error := some e },
         [Cmd.git .diffIndexQuiet, Cmd.git .lsFilesOthers])
    | .ok untracked =>
      if (hasUnstagedB env || (untracked != "")) = false then
        ({ service := sn, success := true, status := some "no changes",
           branch := none, error := none },
         [Cmd.git .diffIndexQuiet, Cmd.git .lsFilesOthers])
      else
        match env.git .resetHard with
        | .error e =>
            ({ service := sn, success := false, status := none, branch := none,
               error := some e },
             [Cmd.git .diffIndexQuiet, Cmd.git .lsFilesOthers, Cmd.git .resetHard])
        | .ok _ =>
          match env.git .cleanFd with
          | .error e =>
              ({ service := sn, success := false, status := none, branch := none,
                 error := some e },
               [Cmd.git .diffIndexQuiet, Cmd.git .lsFilesOthers, Cmd.git .resetHard,
                Cmd.git .cleanFd])
          | .ok _ =>
            match env.git .revParseHead with
            | .error e =>
                ({ service := sn, success := false, status := none, branch := none,
                   error := some e },
                 [Cmd.git .diffIndexQuiet, Cmd.git .lsFilesOthers, Cmd.git .resetHard,
                  Cmd.git .cleanFd, Cmd.git .revParseHead])
            | .ok cb =>
                ({ service := sn, success := true, status := some "changes dropped",
                   branch := some cb, error := none },
                 [Cmd.git .diffIndexQuiet, Cmd.git .lsFilesOthers, Cmd.git .resetHard,
                  Cmd.git .cleanFd, Cmd.git .revParseHead])

/-- Lines 1214-1218 of the source: the PR body, or the auto-generated
default mentioning the current branch. -/
def prBodyText (body : Option String) (cb : String) : String :=
  match body with
  | some b => b
  | none => "Auto-generated PR for " ++ cb

/-- Lines 1211-1235 of createPullRequest, after the upstream handling: the
default base branch discovery and the gh invocation (title, body or the
auto-generated body, draft flag, base).  tr is the accumulated trace. -/
def createPRTail (sn : String) (env : RepoEnv) (title : String)
    (body : Option String) (draft : Bool) (cb : String) (tr : List Cmd) :
    Option PRResult × List Cmd :=
  match env.git .symbolicRefHead with
  | .error e =>
      (some { service := sn, success := false, branch := none, prUrl := none,
              error := some e },
       tr ++ [Cmd.git .symbolicRefHead])
  | .ok db =>
    match env.sh (.ghPrCreate title (prBodyText body cb) draft db) with
    | .error e =>
        (some { service := sn, success := false, branch := none, prUrl := none,
                error := some e },
         tr ++ [Cmd.git .symbolicRefHead,
                Cmd.sh (.ghPrCreate title (prBodyText body cb) draft db)])
    | .ok url =>
        (some { service := sn, success := true, branch := some cb,
                prUrl := some (jsTrim url), error := none },
         tr ++ [Cmd.git .symbolicRefHead,
                Cmd.sh (.ghPrCreate title (prBodyText body cb) draft db)])

/-- Per-repository body of createPullRequest (lines 1183-1248): a missing
directory is skipped with continue, producing no result record; a protected
current branch (master or main) is refused; a branch without an upstream is
pushed first (a thrown push error reaches the per-repository catch as a
failure record); then the createPRTail steps. -/
def createPRRepo (sn : String) (env : RepoEnv) (title : String)
    (body : Option String) (draft : Bool) : Option PRResult × List Cmd :=
  if env.pathExists = false then (none, [])
  else
    match env.git .revParseHead with
    | .error e =>
        (some { service := sn, success := false, branch := none, prUrl := none,
                error := some e },
         [Cmd.git .revParseHead])
    | .ok cb =>
      if cb == "master" || cb == "main" then
        (some { service := sn, success := false, branch := none, prUrl := none,
                error := some "Cannot create PR from master/main branch" },
         [Cmd.git .revParseHead])
      else
        match env.git (.revParseUpstream cb) with
        | .ok _ =>
            createPRTail sn env title body draft cb
              [Cmd.git .revParseHead, Cmd.git (.revParseUpstream cb)]
        | .error _ =>
          match env.git (.pushUpstream cb) with
          | .error e =>
              (some { service := sn, success := false, branch := none, prUrl := none,
                      error := some e },
               [Cmd.git .revParseHead, Cmd.git (.revParseUpstream cb),
                Cmd.git (.pushUpstream cb)])
          | .ok _ =>
              createPRTail sn env title body draft cb
                [Cmd.git .revParseHead, Cmd.git (.revParseUpstream cb),
                 Cmd.git (.pushUpstream cb)]

/- ===== Fan-out over a repository selection ===== -/

/-- A repository selection: the ordered (name, oracle) pairs the front-end
iterates over with for-of (full registry in definition order, or one
entry). -/
abbrev Selection := List (String × RepoEnv)

/-- Result collection of updateBranches (lines 622-630): one
updateServiceBranch result is pushed per selected repository, in order. -/
def updateBranchesResults (sel : Selection) (tb : String)
    (useComposerUpdate skipDeps : Bool) (now : String) : List UpdateResult :=
  sel.map (fun p => (updateServiceBranch p.1 p.2 tb useComposerUpdate skipDeps now).1)

/-- Result collection of syncRepositories (lines 686-751): one result per
selected repository, in order. -/
def syncResults (sel : Selection) : List SyncResult :=
  sel.map (fun p => (syncRepo p.1 p.2).1)

/-- Result collection of dropUncommittedChanges (lines 1060-1136): one
result per selected repository, in order. -/
def dropResults (sel : Selection) : List DropResult :=
  sel.map (fun p => (dropRepo p.1 p.2).1)

/-- Result collection of manageStash save (lines 924-996): repositories
whose directory is missing are skipped by continue and contribute no
record. -/
def manageStashSaveResults (sel : Selection) (message now : String) : List StashResult :=
  sel.filterMap (fun p => (stashSaveRepo p.1 p.2 message now).1)

/-- Result collection of createPullRequest (lines 1181-1248): repositories
whose directory is missing are skipped by continue and contribute no
record. -/
def createPullRequestResults (sel : Selection) (title : String)
    (body : Option String) (draft : Bool) : List PRResult :=
  sel.filterMap (fun p => (createPRRepo p.1 p.2 title body draft).1)

/- ===== Command front-end (main, lines 2033-2314) ===== -/

/-- Own-property lookup in the services object: the registry entries the
source assigns in initializeServices (lines 101-114). -/
def lookupService (registry : Selection) (n : String) : Option RepoEnv :=
  (registry.find? (fun p => p.1 == n)).map (·.2)

/-- The services mapping is a plain JavaScript object literal, so the
property read services[name] also reaches the properties inherited from
Object.prototype; these are the inherited keys, and each of their values
(a function, or Object.prototype itself for the accessor) is truthy. -/
def objectProtoNames : List String :=
  ["constructor", "hasOwnProperty", "isPrototypeOf", "propertyIsEnumerable",
   "toLocaleString", "toString", "valueOf", "__proto__",
   "__defineGetter__", "__defineSetter__", "__lookupGetter__", "__lookupSetter__"]

/-- Oracle for the entry built from an inherited Object.prototype property:
its value is a function rather than a filesystem path, fs.existsSync
returns false on it, and no external command can be issued against it
(every per-repository operation checks existsSync first). -/
def envProtoValue : RepoEnv :=
  { pathExists := false, hasComposerJson := false, hasPackageJson := false,
    git := fun _ => .error "not a repository path",
    sh := fun _ => .error "not a repository path" }

/-- The JavaScript property read services[name]: an own property (a registry
entry) when present, otherwise an inherited Object.prototype property
(truthy, but not a path), otherwise undefined. -/
def jsGetService (registry : Selection) (n : String) : Option RepoEnv :=
  match lookupService registry n with
  | some env => some env
  | none => if objectProtoNames.contains n then some envProtoValue else none

/-- Selection logic shared by the service-taking commands (for example lines
339-346): no argument, or the falsy empty string, selects the whole
registry; a name whose property read is truthy selects the single entry
built from it (a bogus non-path entry when the read hit the prototype
chain); only a name whose read is undefined reports service-not-found and
selects nothing. -/
def selectServices (registry : Selection) (arg : Option String) : Option Selection :=
  match arg with
  | none => some registry
  | some n =>
    if n == "" then some registry
    else
      match jsGetService registry n with
      | some env => some [(n, env)]
      | none => none

/-- Observable outcome of one front-end command dispatch: the process exit
code, whether a service-not-found error was reported, and the services the
operation was run on. -/
structure MainResult where
  exitCode : Nat
  serviceNotFound : Bool
  ranOn : List String
deriving Repr, DecidableEq

/-- listAvailableBranches dispatch (lines 336-363 with main lines
2084-2087): the function returns normally in every case (it never calls
process.exit), so the process completes with exit code 0; an unknown
service name reports the error and runs on no repository. -/
def branchesMain (registry : Selection) (arg : Option String) : MainResult :=
  match selectServices registry arg with
  | none => { exitCode := 0, serviceNotFound := true, ranOn := [] }
  | some sel => { exitCode := 0, serviceNotFound := false, ranOn := sel.map (·.1) }

/-- showRepositoryStatus dispatch (lines 434-445 with main lines
2114-2117): same selection guard, never calls process.exit. -/
def statusMain (registry : Selection) (arg : Option String) : MainResult :=
  match selectServices registry arg with
  | none => { exitCode := 0, serviceNotFound := true, ranOn := [] }
  | some sel => { exitCode := 0, serviceNotFound := false, ranOn := sel.map (·.1) }

/-- syncRepositories dispatch (lines 674-684 with main lines 2125-2129):
same selection guard, never calls process.exit, and per-repository
failures only become failure records so completion stays exit code 0. -/
def syncMain (registry : Selection) (arg : Option String) : MainResult :=
  match selectServices registry arg with
  | none => { exitCode := 0, serviceNotFound := true, ranOn := [] }
  | some sel => { exitCode := 0, serviceNotFound := false, ranOn := sel.map (·.1) }

/-- The command words accepted by the switch in main (lines 2078-2307). -/
def knownCommands : List String :=
  ["list", "current", "branches", "update", "create", "create-branch", "status",
   "changes", "uncommitted", "sync", "pull", "search", "recent", "activity",
   "stash", "drop", "drop-changes", "pr", "review", "prs", "list-prs",
   "setup-ai", "setup-github", "setup-gh", "setup-config", "config",
   "help", "--help", "-h"]

/-- Modelled slice of main (lines 2033-2314), on the argument list after the
global flags have been spliced out: the branches, status and sync/pull
commands with their optional service argument, and the default case for an
unknown command, which calls process.exit(1) (lines 2309-2312).  Commands
outside this slice are not modelled (none). -/
def mainRun (registry : Selection) (args : List String) : Option MainResult :=
  match args with
  | [] => none
  | cmd :: rest =>
    if cmd == "branches" then some (branchesMain registry rest.head?)
    else if cmd == "status" then some (statusMain registry rest.head?)
    else if cmd == "sync" || cmd == "pull" then some (syncMain registry rest.head?)
    else if knownCommands.contains cmd then none
    else some { exitCode := 1, serviceNotFound := false, ranOn := [] }

/- ===== Concrete oracles used for witnesses and counterexamples ===== -/

/-- Outputs of a healthy, clean repository sitting on branch REN-1234. -/
def okGitOutputs : GitCmd → Except String String := fun c =>
  match c with
  | .revParseHead => .ok "REN-1234"
  | .branchAll => .ok "* main\n  remotes/origin/main\n  remotes/origin/HEAD\n  remotes/origin/dev"
  | .revListLeftRight _ => .ok "0\t0"
  | .logLatest => .ok "abc1234 - fix the thing (2 days ago)"
  | .symbolicRefHead => .ok "main"
  | _ => .ok ""

/-- A clean repository whose directory and composer.json exist. -/
def envClean : RepoEnv :=
  { pathExists := true, hasComposerJson := true, hasPackageJson := false,
    git := okGitOutputs, sh := fun _ => .ok "" }

/-- A repository whose directory does not exist. -/
def envMissing : RepoEnv :=
  { pathExists := false, hasComposerJson := false, hasPackageJson := false,
    git := fun _ => .error "ENOENT", sh := fun _ => .error "ENOENT" }

/-- A repository with uncommitted tracked changes (diff-index fails). -/
def envDirty : RepoEnv :=
  { pathExists := true, hasComposerJson := true, hasPackageJson := false,
    git := fun c =>
      match c with
      | .diffIndexQuiet =>
          .error "Command failed: sudo -u www-data git diff-index --quiet HEAD --"
      | .statusPorcelain => .ok " M app/Models/User.php"
      | c2 => okGitOutputs c2,
    sh := fun _ => .ok "" }

/-- A repository whose only changes are untracked files (diff-index
succeeds, ls-files reports a file). -/
def envUntracked : RepoEnv :=
  { pathExists := true, hasComposerJson := true, hasPackageJson := false,
    git := fun c =>
      match c with
      | .lsFilesOthers => .ok "scratch.txt"
      | c2 => okGitOutputs c2,
    sh := fun _ => .ok "" }

/-- A repository where the requested branch is absent from the remote. -/
def envNoRemote : RepoEnv :=
  { pathExists := true, hasComposerJson := true, hasPackageJson := false,
    git := fun c =>
      match c with
      | .revParseVerifyOrigin _ =>
          .error "Command failed: sudo -u www-data git rev-parse --verify origin/release-9"
      | c2 => okGitOutputs c2,
    sh := fun _ => .ok "" }

/-- A repository where every git step succeeds but composer fails. -/
def envComposerFail : RepoEnv :=
  { pathExists := true, hasComposerJson := true, hasPackageJson := false,
    git := okGitOutputs,
    sh := fun _ =>
      .error "Command failed: sudo -u www-data /usr/bin/php8.2 /usr/local/bin/composer26 install --no-interaction" }

/-- A one-entry registry used to exercise the front-end model. -/
def regSample : Selection := [("ads", envClean)]

/- ===== Helper lemmas ===== -/

theorem updateTail_service (sn : String) (env : RepoEnv) (tb : String)
    (u s : Bool) (tr : List Cmd) : ((updateTail sn env tb u s tr).1).service = sn := by
  unfold updateTail
  repeat' split
  all_goals rfl

theorem updateServiceBranch_service (sn : String) (env : RepoEnv) (tb : String)
    (u s : Bool) (now : String) :
    ((updateServiceBranch sn env tb u s now).1).service = sn := by
  unfold updateServiceBranch
  repeat' split
  all_goals first
    | rfl
    | apply updateTail_service

theorem syncRepo_service (sn : String) (env : RepoEnv) :
    ((syncRepo sn env).1).service = sn := by
  unfold syncRepo
  repeat' split
  all_goals rfl

theorem dropRepo_service (sn : String) (env : RepoEnv) :
    ((dropRepo sn env).1).service = sn := by
  unfold dropRepo
  repeat' split
  all_goals rfl

theorem createPRTail_service (sn : String) (env : RepoEnv) (title : String)
    (body : Option String) (draft : Bool) (cb : String) (tr : List Cmd) :
    ∃ r, (createPRTail sn env title body draft cb tr).1 = some r ∧ r.service = sn := by
  unfold createPRTail
  repeat' split
  all_goals exact ⟨_, rfl, rfl⟩

theorem createPRRepo_missing (sn : String) (env : RepoEnv) (title : String)
    (body : Option String) (draft : Bool) (h : env.pathExists = false) :
    (createPRRepo sn env title body draft).1 = none := by
  simp [createPRRepo, h]

theorem createPRRepo_service (sn : String) (env : RepoEnv) (title : String)
    (body : Option String) (draft : Bool) (h : env.pathExists = true) :
    ∃ r, (createPRRepo sn env title body draft).1 = some r ∧ r.service = sn := by
  unfold createPRRepo
  rw [h]
  repeat' split
  all_goals first
    | exact absurd (by assumption : true = false) (by decide)
    | exact ⟨_, rfl, rfl⟩
    | apply createPRTail_service

theorem updateTail_success (sn : String) (env : RepoEnv) (tb : String)
    (u s : Bool) (tr : List Cmd) :
    ((updateTail sn env tb u s tr).1).success =
      (isOk (env.git .fetch) && isOk (env.git (.revParseVerifyOrigin tb))
        && isOk (env.git (.checkout tb)) && isOk (env.git .pull)
        && isOk (env.git .logLatest)) := by
  unfold updateTail
  repeat' split
  all_goals simp_all [isOk, updFail]

theorem updateServiceBranch_success (sn : String) (env : RepoEnv) (tb : String)
    (u s : Bool) (now : String) (h : env.pathExists = true) :
    ((updateServiceBranch sn env tb u s now).1).success =
      (isOk (env.git .revParseHead)
        && (isOk (env.git .diffIndexQuiet)
              || isOk (env.git (.stashPush (autoStashMsg now))))
        && isOk (env.git .fetch) && isOk (env.git (.revParseVerifyOrigin tb))
        && isOk (env.git (.checkout tb)) && isOk (env.git .pull)
        && isOk (env.git .logLatest)) := by
  unfold updateServiceBranch
  rw [h]
  repeat' split
  all_goals simp_all [isOk, updFail, updateTail_success]

theorem updateTail_no_sh (sn : String) (env : RepoEnv) (tb : String)
    (u s : Bool) (tr : List Cmd) (hp : isOk (env.git .pull) = false)
    (htr : ∀ c, Cmd.sh c ∉ tr) :
    ∀ c, Cmd.sh c ∉ (updateTail sn env tb u s tr).2 := by
  unfold updateTail
  repeat' split
  all_goals intro c
  all_goals simp_all [isOk, List.mem_append, htr c]

theorem updateServiceBranch_no_sh (sn : String) (env : RepoEnv) (tb : String)
    (u s : Bool) (now : String) (hp : isOk (env.git .pull) = false) :
    ∀ c, Cmd.sh c ∉ (updateServiceBranch sn env tb u s now).2 := by
  unfold updateServiceBranch
  repeat' split
  all_goals first
    | (intro c; simp)
    | (apply updateTail_no_sh _ _ _ _ _ _ hp; intro c; simp)

theorem updateServiceBranch_fail_of_pull (sn : String) (env : RepoEnv) (tb : String)
    (u s : Bool) (now : String) (hp : isOk (env.git .pull) = false) :
    ((updateServiceBranch sn env tb u s now).1).success = false := by
  by_cases h : env.pathExists = true
  · rw [updateServiceBranch_success sn env tb u s now h, hp]
    simp
  · have h2 : env.pathExists = false := by
      cases hb : env.pathExists
      · rfl
      · exact absurd hb h
    unfold updateServiceBranch
    rw [h2]
    simp [updFail]

theorem updateTail_fst_sh_invariant (sn : String) (env : RepoEnv)
    (sh1 sh2 : ShCmd → Except String String) (tb : String) (u s : Bool) (tr : List Cmd) :
    (updateTail sn { env with sh := sh1 } tb u s tr).1 =
    (updateTail sn { env with sh := sh2 } tb u s tr).1 := by
  unfold updateTail
  rcases h1 : env.git .fetch with e1 | o1
  · simp [h1]
  · rcases h2 : env.git (.revParseVerifyOrigin tb) with e2 | o2
    · simp [h1, h2]
    · rcases h3 : env.git (.checkout tb) with e3 | o3
      · simp [h1, h2, h3]
      · rcases h4 : env.git .pull with e4 | o4
        · simp [h1, h2, h3, h4]
        · rcases h5 : env.git .logLatest with e5 | o5 <;> simp [h1, h2, h3, h4, h5]

theorem updateServiceBranch_fst_sh_invariant (sn : String) (env : RepoEnv)
    (sh1 sh2 : ShCmd → Except String String) (tb : String) (u s : Bool) (now : String) :
    (updateServiceBranch sn { env with sh := sh1 } tb u s now).1 =
    (updateServiceBranch sn { env with sh := sh2 } tb u s now).1 := by
  unfold updateServiceBranch
  rcases hp : env.pathExists with _ | _
  · simp [hp]
  · rcases h1 : env.git .revParseHead with e1 | o1
    · simp [hp, h1]
    · rcases h2 : env.git .diffIndexQuiet with e2 | o2
      · rcases h3 : env.git (.stashPush (autoStashMsg now)) with e3 | o3
        · simp [hp, h1, h2, h3]
        · simp only [hp, h1, h2, h3]
          exact updateTail_fst_sh_invariant sn env sh1 sh2 tb u s _
      · simp only [hp, h1, h2]
        exact updateTail_fst_sh_invariant sn env sh1 sh2 tb u s _

theorem hasUnstagedB_eq (env : RepoEnv) :
    hasUnstagedB env = !(isOk (env.git .diffIndexQuiet)) := by
  rcases h : env.git .diffIndexQuiet with e | o <;> simp [hasUnstagedB, isOk, h]

/- ===== Claim theorems ===== -/

/-- C8: the branch-enumeration parsing, applied to the raw listing lines
["* main", "remotes/origin/main", "remotes/origin/HEAD",
"remotes/origin/dev"], yields exactly ["main", "dev"]: the current-branch
marker and the remote-origin segment are stripped, duplicates are removed
keeping the first occurrence, the HEAD pseudo-branch is dropped, and the
remaining order is preserved. -/
theorem c8_branch_dedup_fixture :
    parseBranchLines
      ["* main", "remotes/origin/main", "remotes/origin/HEAD", "remotes/origin/dev"]
      = ["main", "dev"] := by decide

/-- C5: for every RepositoryStatus produced by the status operation, isClean
is true exactly when uncommittedFileCount, commitsAhead and commitsBehind
are all zero; it is computed from those three counters at the single
construction site and never set independently. -/
theorem c5_isClean_iff (sn : String) (env : RepoEnv) (st : RepoStatus)
    (h : (getRepositoryStatus sn env).1 = StatusOutcome.ok st) :
    (st.isClean = true ↔
      st.uncommittedFiles = 0 ∧ st.commitsAhead = 0 ∧ st.commitsBehind = 0) := by
  unfold getRepositoryStatus at h
  split at h
  · simp at h
  · split at h
    · simp at h
    · simp only [StatusOutcome.ok.injEq] at h
      subst h
      simp [Bool.and_eq_true, beq_iff_eq, and_assoc]

/-- Witness for C5: the clean-repository oracle yields a status record with
all three counters zero and isClean true, and the equivalence holds on it. -/
theorem c5_witness :
    ((RepoStatus.mk "ads" "REN-1234" 0 false false 0 0 true).isClean = true ↔
      (RepoStatus.mk "ads" "REN-1234" 0 false false 0 0 true).uncommittedFiles = 0 ∧
      (RepoStatus.mk "ads" "REN-1234" 0 false false 0 0 true).commitsAhead = 0 ∧
      (RepoStatus.mk "ads" "REN-1234" 0 false false 0 0 true).commitsBehind = 0) :=
  c5_isClean_iff "ads" envClean (RepoStatus.mk "ads" "REN-1234" 0 false false 0 0 true)
    (by decide)

/-- C6: when the target branch does not exist on the remote (the verify
query fails) and the steps before the guard succeed, update-to-branch fails
with exactly the constructed error containing "does not exist in remote"
and never issues any checkout command for that repository. -/
theorem c6_missing_remote_branch_guard (sn : String) (env : RepoEnv) (tb : String)
    (u s : Bool) (now : String)
    (h : env.pathExists = true)
    (h1 : isOk (env.git .revParseHead) = true)
    (h2 : (isOk (env.git .diffIndexQuiet)
            || isOk (env.git (.stashPush (autoStashMsg now)))) = true)
    (h3 : isOk (env.git .fetch) = true)
    (h4 : isOk (env.git (.revParseVerifyOrigin tb)) = false) :
    (updateServiceBranch sn env tb u s now).1 =
      updFail sn ("Branch '" ++ tb ++ "' does not exist in remote") ∧
    ∀ b, Cmd.git (.checkout b) ∉ (updateServiceBranch sn env tb u s now).2 := by
  rcases hr : env.git .revParseHead with e1 | o1
  · rw [hr] at h1
    exact absurd h1 (by simp [isOk])
  · rcases hf : env.git .fetch with e2 | o2
    · rw [hf] at h3
      exact absurd h3 (by simp [isOk])
    · rcases hv : env.git (.revParseVerifyOrigin tb) with e3 | o3
      · rcases hd : env.git .diffIndexQuiet with e4 | o4
        · rw [hd] at h2
          rcases hs : env.git (.stashPush (autoStashMsg now)) with e5 | o5
          · rw [hs] at h2
            exact absurd h2 (by simp [isOk])
          · refine ⟨?_, ?_⟩
            · simp [updateServiceBranch, updateTail, h, hr, hd, hs, hf, hv]
            · intro b
              simp [updateServiceBranch, updateTail, h, hr, hd, hs, hf, hv]
        · refine ⟨?_, ?_⟩
          · simp [updateServiceBranch, updateTail, h, hr, hd, hf, hv]
          · intro b
            simp [updateServiceBranch, updateTail, h, hr, hd, hf, hv]
      · rw [hv] at h4
        exact absurd h4 (by simp [isOk])

/-- Witness for C6: on the oracle whose remote lacks the requested branch,
updating to release-9 fails with the does-not-exist error and the trace
holds no checkout. -/
theorem c6_witness :
    (updateServiceBranch "ads" envNoRemote "release-9" false false "T").1 =
      updFail "ads" ("Branch '" ++ "release-9" ++ "' does not exist in remote") ∧
    ∀ b, Cmd.git (.checkout b) ∉ (updateServiceBranch "ads" envNoRemote "release-9" false false "T").2 :=
  c6_missing_remote_branch_guard "ads" envNoRemote "release-9" false false "T"
    (by decide) (by decide) (by decide) (by decide) (by decide)

/-- C7: sync on a repository whose tracked working tree is dirty (the
diff-index probe fails) records the Has-uncommitted-changes failure and
issues neither fetch nor pull there; on a repository with a clean tracked
tree it issues fetch and then pull. -/
theorem c7_sync_dirty_refusal (sn : String) (env : RepoEnv) (b : String)
    (h : env.pathExists = true) (hr : env.git .revParseHead = .ok b) :
    (isOk (env.git .diffIndexQuiet) = false →
       (syncRepo sn env).1 =
         { service := sn, success := false, branch := none,
           error := some "Has uncommitted changes" } ∧
       Cmd.git .fetch ∉ (syncRepo sn env).2 ∧ Cmd.git .pull ∉ (syncRepo sn env).2) ∧
    (isOk (env.git .diffIndexQuiet) = true →
       Cmd.git .fetch ∈ (syncRepo sn env).2 ∧
       (isOk (env.git .fetch) = true →
          (syncRepo sn env).2 =
            [Cmd.git .revParseHead, Cmd.git .diffIndexQuiet,
             Cmd.git .fetch, Cmd.git .pull])) := by
  refine ⟨?_, ?_⟩
  · intro hd
    rcases hdi : env.git .diffIndexQuiet with e | o
    · refine ⟨?_, ?_, ?_⟩ <;> simp [syncRepo, h, hr, hdi]
    · rw [hdi] at hd
      exact absurd hd (by simp [isOk])
  · intro hd
    rcases hdi : env.git .diffIndexQuiet with e | o
    · rw [hdi] at hd
      exact absurd hd (by simp [isOk])
    · rcases hf : env.git .fetch with e2 | o2
      · refine ⟨?_, ?_⟩
        · simp [syncRepo, h, hr, hdi, hf]
        · intro hfo
          exact absurd hfo (by simp [isOk])
      · rcases hp : env.git .pull with e3 | o3 <;>
          refine ⟨?_, fun _ => ?_⟩ <;>
          simp [syncRepo, h, hr, hdi, hf, hp]

/-- Witness for C7: the dirty oracle is refused without fetch or pull, and
the clean oracle issues fetch then pull. -/
theorem c7_witness :
    ((isOk (envDirty.git .diffIndexQuiet) = false →
       (syncRepo "ads" envDirty).1 =
         { service := "ads", success := false, branch := none,
           error := some "Has uncommitted changes" } ∧
       Cmd.git .fetch ∉ (syncRepo "ads" envDirty).2 ∧
       Cmd.git .pull ∉ (syncRepo "ads" envDirty).2) ∧
     (isOk (envDirty.git .diffIndexQuiet) = true →
       Cmd.git .fetch ∈ (syncRepo "ads" envDirty).2 ∧
       (isOk (envDirty.git .fetch) = true →
          (syncRepo "ads" envDirty).2 =
            [Cmd.git .revParseHead, Cmd.git .diffIndexQuiet,
             Cmd.git .fetch, Cmd.git .pull]))) ∧
    ((isOk (envClean.git .diffIndexQuiet) = false →
       (syncRepo "sms" envClean).1 =
         { service := "sms", success := false, branch := none,
           error := some "Has uncommitted changes" } ∧
       Cmd.git .fetch ∉ (syncRepo "sms" envClean).2 ∧
       Cmd.git .pull ∉ (syncRepo "sms" envClean).2) ∧
     (isOk (envClean.git .diffIndexQuiet) = true →
       Cmd.git .fetch ∈ (syncRepo "sms" envClean).2 ∧
       (isOk (envClean.git .fetch) = true →
          (syncRepo "sms" envClean).2 =
            [Cmd.git .revParseHead, Cmd.git .diffIndexQuiet,
             Cmd.git .fetch, Cmd.git .pull]))) :=
  ⟨c7_sync_dirty_refusal "ads" envDirty "REN-1234" (by decide) (by rfl),
   c7_sync_dirty_refusal "sms" envClean "REN-1234" (by decide) (by rfl)⟩

/-- C9: stash save records status "no changes" on a repository with a clean
tracked tree; on a dirty repository whose stash push succeeds it records
status "saved" carrying a non-empty message, the supplied one or the
generated timestamped default when none (the falsy empty string) is
supplied. -/
theorem c9_stash_save_outcomes (sn : String) (env : RepoEnv) (message now : String)
    (h : env.pathExists = true) :
    (isOk (env.git .diffIndexQuiet) = true →
       (stashSaveRepo sn env message now).1 =
         some { service := sn, action := "save", status := "no changes",
                message := none, error := none }) ∧
    (isOk (env.git .diffIndexQuiet) = false →
       isOk (env.git (.stashPush (stashMsgOf message now))) = true →
       (stashSaveRepo sn env message now).1 =
         some { service := sn, action := "save", status := "saved",
                message := some (stashMsgOf message now), error := none } ∧
       stashMsgOf message now ≠ "") := by
  refine ⟨?_, ?_⟩
  · intro hd
    rcases hdi : env.git .diffIndexQuiet with e | o
    · exact absurd hd (by simp [isOk, hdi])
    · simp [stashSaveRepo, h, hdi]
  · intro hd hp
    rcases hdi : env.git .diffIndexQuiet with e | o
    · rcases hps : env.git (.stashPush (stashMsgOf message now)) with e2 | o2
      · exact absurd hp (by simp [isOk, hps])
      · refine ⟨by simp [stashSaveRepo, h, hdi, hps], ?_⟩
        unfold stashMsgOf
        by_cases hm : message == ""
        · rw [if_pos hm]
          intro hemp
          have hlen := congrArg String.length hemp
          rw [String.length_append] at hlen
          have h19 : "repo-manager stash ".length = 19 := by decide
          have h0 : "".length = 0 := by decide
          rw [h19, h0] at hlen
          omega
        · rw [if_neg hm]
          intro hemp
          exact hm (by simp [hemp])
    · exact absurd hd (by simp [isOk, hdi])

/-- Witness for C9: the clean oracle reports no changes; the dirty oracle
with no supplied message saves under the generated timestamped default. -/
theorem c9_witness :
    ((isOk (envClean.git .diffIndexQuiet) = true →
       (stashSaveRepo "ads" envClean "wip" "T").1 =
         some { service := "ads", action := "save", status := "no changes",
                message := none, error := none }) ∧
     (isOk (envClean.git .diffIndexQuiet) = false →
       isOk (envClean.git (.stashPush (stashMsgOf "wip" "T"))) = true →
       (stashSaveRepo "ads" envClean "wip" "T").1 =
         some { service := "ads", action := "save", status := "saved",
                message := some (stashMsgOf "wip" "T"), error := none } ∧
       stashMsgOf "wip" "T" ≠ "")) ∧
    ((isOk (envDirty.git .diffIndexQuiet) = true →
       (stashSaveRepo "sms" envDirty "" "2025-01-01T00:00:00.000Z").1 =
         some { service := "sms", action := "save", status := "no changes",
                message := none, error := none }) ∧
     (isOk (envDirty.git .diffIndexQuiet) = false →
       isOk (envDirty.git (.stashPush (stashMsgOf "" "2025-01-01T00:00:00.000Z"))) = true →
       (stashSaveRepo "sms" envDirty "" "2025-01-01T00:00:00.000Z").1 =
         some { service := "sms", action := "save", status := "saved",
                message := some (stashMsgOf "" "2025-01-01T00:00:00.000Z"), error := none } ∧
       stashMsgOf "" "2025-01-01T00:00:00.000Z" ≠ "")) :=
  ⟨c9_stash_save_outcomes "ads" envClean "wip" "T" (by decide),
   c9_stash_save_outcomes "sms" envDirty "" "2025-01-01T00:00:00.000Z" (by decide)⟩

/-- C10: drop-changes reports the distinct "no changes" outcome exactly when
the tracked tree matches HEAD (diff-index succeeds) and ls-files reports no
untracked files; a repository whose only changes are untracked files is
treated as having changes, so the hard reset and the clean are issued,
while on the same oracle sync proceeds to fetch (its dirty check looks only
at tracked changes) and stash save reports "no changes". -/
theorem c10_drop_untracked_contrast (sn : String) (env : RepoEnv) (u : String)
    (h : env.pathExists = true) (hls : env.git .lsFilesOthers = .ok u) :
    ((dropRepo sn env).1.status = some "no changes" ↔
       (isOk (env.git .diffIndexQuiet) = true ∧ u = "")) ∧
    (isOk (env.git .diffIndexQuiet) = true → u ≠ "" →
       Cmd.git .resetHard ∈ (dropRepo sn env).2 ∧
       (isOk (env.git .resetHard) = true → Cmd.git .cleanFd ∈ (dropRepo sn env).2) ∧
       (∀ m now, (stashSaveRepo sn env m now).1 =
          some { service := sn, action := "save", status := "no changes",
                 message := none, error := none }) ∧
       (∀ b, env.git .revParseHead = .ok b → Cmd.git .fetch ∈ (syncRepo sn env).2)) := by
  refine ⟨?_, ?_⟩
  · by_cases hc : (hasUnstagedB env || (u != "")) = false
    · have hres : (dropRepo sn env).1.status = some "no changes" := by
        simp [dropRepo, h, hls, hc]
      have hdi2 : isOk (env.git .diffIndexQuiet) = true := by
        rcases hio : isOk (env.git .diffIndexQuiet) with _ | _
        · exfalso
          rw [hasUnstagedB_eq, hio] at hc
          simp at hc
        · rfl
      have hue : u = "" := by
        by_cases hq : u = ""
        · exact hq
        · exfalso
          have hbne : (u != "") = true := by simp [hq]
          rw [hbne] at hc
          simp at hc
      rw [hres]
      simp [hdi2, hue]
    · have hc2 : (hasUnstagedB env || (u != "")) = true := by
        rcases hb : (hasUnstagedB env || (u != "")) with _ | _
        · exact absurd hb hc
        · rfl
      constructor
      · intro hst
        exfalso
        rcases h1 : env.git .resetHard with e1 | o1
        · simp [dropRepo, h, hls, hc2, h1] at hst
        · rcases h2 : env.git .cleanFd with e2 | o2
          · simp [dropRepo, h, hls, hc2, h1, h2] at hst
          · rcases h3 : env.git .revParseHead with e3 | o3
            · simp [dropRepo, h, hls, hc2, h1, h2, h3] at hst
            · simp [dropRepo, h, hls, hc2, h1, h2, h3] at hst
      · intro hand
        exfalso
        rw [hasUnstagedB_eq, hand.1, hand.2] at hc2
        simp at hc2
  · intro hd hu
    have hc2 : (hasUnstagedB env || (u != "")) = true := by
      rw [hasUnstagedB_eq, hd]
      have hbne : (u != "") = true := by simp [hu]
      rw [hbne]
      simp
    refine ⟨?_, ?_, ?_, ?_⟩
    · rcases h1 : env.git .resetHard with e1 | o1 <;>
        rcases h2 : env.git .cleanFd with e2 | o2 <;>
        rcases h3 : env.git .revParseHead with e3 | o3 <;>
        simp [dropRepo, h, hls, hc2, h1, h2, h3]
    · intro hro
      rcases h1 : env.git .resetHard with e1 | o1
      · exact absurd hro (by simp [isOk, h1])
      · rcases h2 : env.git .cleanFd with e2 | o2 <;>
          rcases h3 : env.git .revParseHead with e3 | o3 <;>
          simp [dropRepo, h, hls, hc2, h1, h2, h3]
    · intro m now
      rcases hdi : env.git .diffIndexQuiet with e | o
      · exact absurd hd (by simp [isOk, hdi])
      · simp [stashSaveRepo, h, hdi]
    · intro b hb
      rcases hdi : env.git .diffIndexQuiet with e | o
      · exact absurd hd (by simp [isOk, hdi])
      · rcases hf : env.git .fetch with e2 | o2 <;>
          rcases hp : env.git .pull with e3 | o3 <;>
          simp [syncRepo, h, hb, hdi, hf, hp]

/-- Witness for C10: on the oracle whose only change is the untracked file
scratch.txt, drop is not a no-op (reset and clean appear in the trace)
while stash save still reports no changes and sync still fetches. -/
theorem c10_witness :
    (((dropRepo "ads" envUntracked).1.status = some "no changes" ↔
       (isOk (envUntracked.git .diffIndexQuiet) = true ∧ "scratch.txt" = "")) ∧
     (isOk (envUntracked.git .diffIndexQuiet) = true → "scratch.txt" ≠ "" →
       Cmd.git .resetHard ∈ (dropRepo "ads" envUntracked).2 ∧
       (isOk (envUntracked.git .resetHard) = true →
          Cmd.git .cleanFd ∈ (dropRepo "ads" envUntracked).2) ∧
       (∀ m now, (stashSaveRepo "ads" envUntracked m now).1 =
          some { service := "ads", action := "save", status := "no changes",
                 message := none, error := none }) ∧
       (∀ b, envUntracked.git .revParseHead = .ok b →
          Cmd.git .fetch ∈ (syncRepo "ads" envUntracked).2))) :=
  c10_drop_untracked_contrast "ads" envUntracked "scratch.txt" (by decide) (by rfl)

/-- C4 counterexample: on a repository where every git step succeeds but the
dependency installation (composer) fails, the failing step does not abort
the remaining steps and the result still records success=true, so the
claim that any failing step records success=false with the error is false
at this input. -/
theorem c4_counterexample :
    isOk (envComposerFail.sh (ShCmd.composerPhp82 "install")) = false ∧
    Cmd.sh (ShCmd.composerPhp82 "install")
      ∈ (updateServiceBranch "frontend" envComposerFail "dev" false false "T").2 ∧
    (updateServiceBranch "frontend" envComposerFail "dev" false false "T").1.success = true ∧
    (updateServiceBranch "frontend" envComposerFail "dev" false false "T").1.error = none := by
  refine ⟨by decide, by decide, by decide, by decide⟩

/-- C4 as amended: during update-to-branch on one repository, any failing
git step (branch query, auto-stash, fetch, remote verify, checkout, pull,
final commit query) makes the result record success=false, and a pull that
has not succeeded means the dependency-installation step was never invoked
(so earlier failures abort it); a failure inside the dependency
installation itself is caught and logged only - the recorded result is
entirely independent of the dependency commands' outcomes; and the result
of each repository in a batch is unaffected by the other repositories. -/
theorem c4_step_failure_contract :
    (∀ (sn : String) (env : RepoEnv) (tb : String) (u s : Bool) (now : String),
       env.pathExists = true →
       ((updateServiceBranch sn env tb u s now).1).success =
         (isOk (env.git .revParseHead)
           && (isOk (env.git .diffIndexQuiet)
                 || isOk (env.git (.stashPush (autoStashMsg now))))
           && isOk (env.git .fetch) && isOk (env.git (.revParseVerifyOrigin tb))
           && isOk (env.git (.checkout tb)) && isOk (env.git .pull)
           && isOk (env.git .logLatest))) ∧
    (∀ (sn : String) (env : RepoEnv) (tb : String) (u s : Bool) (now : String),
       isOk (env.git .pull) = false →
       ((updateServiceBranch sn env tb u s now).1).success = false ∧
       ∀ c, Cmd.sh c ∉ (updateServiceBranch sn env tb u s now).2) ∧
    (∀ (sn : String) (env : RepoEnv) (sh1 sh2 : ShCmd → Except String String)
       (tb : String) (u s : Bool) (now : String),
       (updateServiceBranch sn { env with sh := sh1 } tb u s now).1 =
       (updateServiceBranch sn { env with sh := sh2 } tb u s now).1) ∧
    (∀ (sel1 sel2 : Selection) (sn : String) (env : RepoEnv) (tb : String)
       (u s : Bool) (now : String),
       updateBranchesResults (sel1 ++ (sn, env) :: sel2) tb u s now =
         updateBranchesResults sel1 tb u s now
           ++ (updateServiceBranch sn env tb u s now).1
             :: updateBranchesResults sel2 tb u s now) :=
  ⟨fun sn env tb u s now h => updateServiceBranch_success sn env tb u s now h,
   fun sn env tb u s now hp =>
     ⟨updateServiceBranch_fail_of_pull sn env tb u s now hp,
      updateServiceBranch_no_sh sn env tb u s now hp⟩,
   fun sn env sh1 sh2 tb u s now =>
     updateServiceBranch_fst_sh_invariant sn env sh1 sh2 tb u s now,
   fun sel1 sel2 sn env tb u s now => by
     simp [updateBranchesResults]⟩

/-- Witness for C4 as amended: the contract evaluated on the
composer-failure oracle (success determined by the git steps alone) and on
the no-remote oracle (failed pull chain records failure and the trace holds
no dependency command). -/
theorem c4_witness :
    (((updateServiceBranch "frontend" envComposerFail "dev" false false "T").1).success =
       (isOk (envComposerFail.git .revParseHead)
         && (isOk (envComposerFail.git .diffIndexQuiet)
               || isOk (envComposerFail.git (.stashPush (autoStashMsg "T"))))
         && isOk (envComposerFail.git .fetch)
         && isOk (envComposerFail.git (.revParseVerifyOrigin "dev"))
         && isOk (envComposerFail.git (.checkout "dev"))
         && isOk (envComposerFail.git .pull)
         && isOk (envComposerFail.git .logLatest))) ∧
    (((updateServiceBranch "ads" envMissing "dev" false false "T").1).success = false ∧
       ∀ c, Cmd.sh c ∉ (updateServiceBranch "ads" envMissing "dev" false false "T").2) :=
  ⟨(c4_step_failure_contract.1) "frontend" envComposerFail "dev" false false "T" (by decide),
   (c4_step_failure_contract.2.1) "ads" envMissing "dev" false false "T" (by decide)⟩

/-- C2 counterexample: the stash operation does not return a
Directory-not-found failure record for a repository whose path is missing -
it skips the repository entirely (continue before any command), so the
claim that every per-repository operation returns success=false with
error="Directory not found" is false at this input. -/
theorem c2_counterexample :
    envMissing.pathExists = false ∧
    (stashSaveRepo "ads" envMissing "" "T").1 = none ∧
    manageStashSaveResults [("ads", envMissing)] "" "T" = [] := by
  refine ⟨by decide, by decide, by decide⟩

/-- C2 as amended: when the repository path does not exist, the
current-branch, branch-list, update, status, sync and drop operations
return a result carrying error "Directory not found" (success=false where
the record has a success field) and invoke zero external commands; the
stash and PR-creation operations skip such a repository silently, producing
no result record, likewise invoking zero external commands. -/
theorem c2_missing_directory_short_circuit (sn tb m now title : String)
    (env : RepoEnv) (body : Option String) (u s draft : Bool)
    (h : env.pathExists = false) :
    getCurrentBranch sn env =
      ({ service := sn, branch := "N/A", error := some "Directory not found" }, []) ∧
    getAllBranches sn env =
      ({ service := sn, branches := [], error := some "Directory not found" }, []) ∧
    updateServiceBranch sn env tb u s now = (updFail sn "Directory not found", []) ∧
    getRepositoryStatus sn env = (.err sn "Directory not found", []) ∧
    syncRepo sn env =
      ({ service := sn, success := false, branch := none,
         error := some "Directory not found" }, []) ∧
    dropRepo sn env =
      ({ service := sn, success := false, status := none, branch := none,
         error := some "Directory not found" }, []) ∧
    stashSaveRepo sn env m now = (none, []) ∧
    createPRRepo sn env title body draft = (none, []) := by
  refine ⟨?_, ?_, ?_, ?_, ?_, ?_, ?_, ?_⟩ <;>
    simp [getCurrentBranch, getAllBranches, updateServiceBranch, getRepositoryStatus,
          syncRepo, dropRepo, stashSaveRepo, createPRRepo, h]

/-- Witness for C2 as amended: the short-circuit evaluated on the
missing-directory oracle. -/
theorem c2_witness :
    getCurrentBranch "ads" envMissing =
      ({ service := "ads", branch := "N/A", error := some "Directory not found" }, []) ∧
    getAllBranches "ads" envMissing =
      ({ service := "ads", branches := [], error := some "Directory not found" }, []) ∧
    updateServiceBranch "ads" envMissing "dev" false false "T" =
      (updFail "ads" "Directory not found", []) ∧
    getRepositoryStatus "ads" envMissing = (.err "ads" "Directory not found", []) ∧
    syncRepo "ads" envMissing =
      ({ service := "ads", success := false, branch := none,
         error := some "Directory not found" }, []) ∧
    dropRepo "ads" envMissing =
      ({ service := "ads", success := false, status := none, branch := none,
         error := some "Directory not found" }, []) ∧
    stashSaveRepo "ads" envMissing "m" "T" = (none, []) ∧
    createPRRepo "ads" envMissing "t" none false = (none, []) :=
  c2_missing_directory_short_circuit "ads" "dev" "m" "T" "t" envMissing none
    false false false (by decide)

/-- C1 counterexample: a one-repository selection whose directory is missing
yields zero createPullRequest result records rather than one, so the claim
that every batch fan-out operation produces exactly one result per selected
repository (none silently skipped) is false at this input. -/
theorem c1_counterexample :
    ([("ads", envMissing)] : Selection).length = 1 ∧
    createPullRequestResults [("ads", envMissing)] "Fix auth bug" none false = [] := by
  refine ⟨rfl, by decide⟩

/-- C1 as amended: the update, sync and drop fan-outs produce exactly one
result per selected repository, in selection order, regardless of
individual failures; the createPullRequest fan-out produces exactly one
result per selected repository whose directory exists, silently skipping
selected repositories whose directory is missing. -/
theorem c1_fanout_cardinality :
    (∀ (sel : Selection) (tb : String) (u s : Bool) (now : String),
       (updateBranchesResults sel tb u s now).map UpdateResult.service =
         sel.map Prod.fst) ∧
    (∀ sel : Selection,
       (syncResults sel).map SyncResult.service = sel.map Prod.fst) ∧
    (∀ sel : Selection,
       (dropResults sel).map DropResult.service = sel.map Prod.fst) ∧
    (∀ (sel : Selection) (title : String) (body : Option String) (draft : Bool),
       (createPullRequestResults sel title body draft).map PRResult.service =
         (sel.filter (fun p => p.2.pathExists)).map Prod.fst) := by
  refine ⟨?_, ?_, ?_, ?_⟩
  · intro sel tb u s now
    induction sel with
    | nil => rfl
    | cons p t ih => simp [updateBranchesResults, updateServiceBranch_service, ih] at *
  · intro sel
    induction sel with
    | nil => rfl
    | cons p t ih => simp [syncResults, syncRepo_service, ih] at *
  · intro sel
    induction sel with
    | nil => rfl
    | cons p t ih => simp [dropResults, dropRepo_service, ih] at *
  · intro sel title body draft
    induction sel with
    | nil => rfl
    | cons p t ih =>
        by_cases hp : p.2.pathExists = true
        · obtain ⟨r, hr, hserv⟩ := createPRRepo_service p.1 p.2 title body draft hp
          simp only [createPullRequestResults] at ih ⊢
          rw [List.filterMap_cons, hr, List.filter_cons]
          simp [hp, hserv, ih]
        · have hp2 : p.2.pathExists = false := by simpa using hp
          simp only [createPullRequestResults] at ih ⊢
          rw [List.filterMap_cons, createPRRepo_missing p.1 p.2 title body draft hp2,
              List.filter_cons]
          simp [hp2, ih]

/-- C3 counterexample: selecting the unknown service bogus reports
service-not-found and runs on no repository, but the process completes
normally with exit code 0; and a name hitting an inherited
Object.prototype property, such as constructor, reports no error at all
and runs the operation on one bogus non-path entry, likewise exiting 0.
Both refute the claim that an unknown service name terminates the process
with a non-zero exit code (only the unknown command exits 1). -/
theorem c3_counterexample :
    (lookupService regSample "bogus").isNone = true ∧
    mainRun regSample ["branches", "bogus"] =
      some { exitCode := 0, serviceNotFound := true, ranOn := [] } ∧
    (lookupService regSample "constructor").isNone = true ∧
    mainRun regSample ["branches", "constructor"] =
      some { exitCode := 0, serviceNotFound := false, ranOn := ["constructor"] } ∧
    mainRun regSample ["frobnicate"] =
      some { exitCode := 1, serviceNotFound := false, ranOn := [] } := by
  refine ⟨by rfl, by rfl, by rfl, by rfl, by rfl⟩

/-- C3 as amended: on the branches, status or sync commands, a service name
that is neither a registry entry nor an inherited Object.prototype
property name reports service-not-found, runs the operation on no
repository (never falling back to all services), and the process completes
normally with exit code 0; a non-registry name that is an inherited
Object.prototype property name is truthy under the JavaScript property
read, so no error is reported and the operation runs on a single bogus
entry whose value is not a path; a non-zero exit code arises for an
unknown command, and a sync over the whole registry completes with exit
code 0 regardless of per-repository failures. -/
theorem c3_unknown_service_handling (registry : Selection) (n cmd : String)
    (hn : n ≠ "") (hl : lookupService registry n = none)
    (hc : knownCommands.contains cmd = false) :
    (objectProtoNames.contains n = false →
       mainRun registry ["branches", n] =
         some { exitCode := 0, serviceNotFound := true, ranOn := [] } ∧
       mainRun registry ["status", n] =
         some { exitCode := 0, serviceNotFound := true, ranOn := [] } ∧
       mainRun registry ["sync", n] =
         some { exitCode := 0, serviceNotFound := true, ranOn := [] }) ∧
    (objectProtoNames.contains n = true →
       mainRun registry ["branches", n] =
         some { exitCode := 0, serviceNotFound := false, ranOn := [n] } ∧
       mainRun registry ["status", n] =
         some { exitCode := 0, serviceNotFound := false, ranOn := [n] } ∧
       mainRun registry ["sync", n] =
         some { exitCode := 0, serviceNotFound := false, ranOn := [n] }) ∧
    mainRun registry [cmd] =
      some { exitCode := 1, serviceNotFound := false, ranOn := [] } ∧
    mainRun registry ["sync"] =
      some { exitCode := 0, serviceNotFound := false,
             ranOn := registry.map Prod.fst } := by
  have hb : cmd ≠ "branches" := by
    intro he
    rw [he] at hc
    simp [knownCommands] at hc
  have hs : cmd ≠ "status" := by
    intro he
    rw [he] at hc
    simp [knownCommands] at hc
  have hy : cmd ≠ "sync" := by
    intro he
    rw [he] at hc
    simp [knownCommands] at hc
  have hq : cmd ≠ "pull" := by
    intro he
    rw [he] at hc
    simp [knownCommands] at hc
  refine ⟨?_, ?_, ?_, ?_⟩
  · intro hnp
    have hnp2 : n ∉ objectProtoNames := by simpa using hnp
    refine ⟨?_, ?_, ?_⟩ <;>
      simp [mainRun, branchesMain, statusMain, syncMain, selectServices,
            jsGetService, hn, hl, hnp2]
  · intro hnp
    have hnp2 : n ∈ objectProtoNames := by simpa using hnp
    refine ⟨?_, ?_, ?_⟩ <;>
      simp [mainRun, branchesMain, statusMain, syncMain, selectServices,
            jsGetService, hn, hl, hnp2]
  · have hc2 : cmd ∉ knownCommands := by simpa using hc
    simp [mainRun, hb, hs, hy, hq, hc2]
  · simp [mainRun, syncMain, selectServices]

/-- Witness for C3 as amended: the handling evaluated on the sample registry
at the plainly unknown name unknownsvc (service-not-found branch fires)
and at the inherited prototype property name constructor (bogus-entry
branch fires), with the unknown command paint in both. -/
theorem c3_witness :
    ((objectProtoNames.contains "unknownsvc" = false →
        mainRun regSample ["branches", "unknownsvc"] =
          some { exitCode := 0, serviceNotFound := true, ranOn := [] } ∧
        mainRun regSample ["status", "unknownsvc"] =
          some { exitCode := 0, serviceNotFound := true, ranOn := [] } ∧
        mainRun regSample ["sync", "unknownsvc"] =
          some { exitCode := 0, serviceNotFound := true, ranOn := [] }) ∧
     (objectProtoNames.contains "unknownsvc" = true →
        mainRun regSample ["branches", "unknownsvc"] =
          some { exitCode := 0, serviceNotFound := false, ranOn := ["unknownsvc"] } ∧
        mainRun regSample ["status", "unknownsvc"] =
          some { exitCode := 0, serviceNotFound := false, ranOn := ["unknownsvc"] } ∧
        mainRun regSample ["sync", "unknownsvc"] =
          some { exitCode := 0, serviceNotFound := false, ranOn := ["unknownsvc"] }) ∧
     mainRun regSample ["paint"] =
       some { exitCode := 1, serviceNotFound := false, ranOn := [] } ∧
     mainRun regSample ["sync"] =
       some { exitCode := 0, serviceNotFound := false,
              ranOn := regSample.map Prod.fst }) ∧
    ((objectProtoNames.contains "constructor" = false →
        mainRun regSample ["branches", "constructor"] =
          some { exitCode := 0, serviceNotFound := true, ranOn := [] } ∧
        mainRun regSample ["status", "constructor"] =
          some { exitCode := 0, serviceNotFound := true, ranOn := [] } ∧
        mainRun regSample ["sync", "constructor"] =
          some { exitCode := 0, serviceNotFound := true, ranOn := [] }) ∧
     (objectProtoNames.contains "constructor" = true →
        mainRun regSample ["branches", "constructor"] =
          some { exitCode := 0, serviceNotFound := false, ranOn := ["constructor"] } ∧
        mainRun regSample ["status", "constructor"] =
          some { exitCode := 0, serviceNotFound := false, ranOn := ["constructor"] } ∧
        mainRun regSample ["sync", "constructor"] =
          some { exitCode := 0, serviceNotFound := false, ranOn := ["constructor"] }) ∧
     mainRun regSample ["paint"] =
       some { exitCode := 1, serviceNotFound := false, ranOn := [] } ∧
     mainRun regSample ["sync"] =
       some { exitCode := 0, serviceNotFound := false,
              ranOn := regSample.map Prod.fst }) :=
  ⟨c3_unknown_service_handling regSample "unknownsvc" "paint"
     (by decide) (by rfl) (by decide),
   c3_unknown_service_handling regSample "constructor" "paint"
     (by decide) (by rfl) (by decide)⟩
